import Mathlib

/-!
Verification of `spikingjelly/activation_based/layer.py` and `VGG_test.py`.

Two embeddings of the tensor data are used.

Value model: a batched tensor `[N, ...]` is a `List α` of `N` samples
(the payload `α` stands for one sample's `[C, H, W]` data), and a
sequence tensor `[T, N, ...]` is a `List (List α)` of `T` batches.
The host library's layer forward (`torch.nn.Conv2d.forward`, pooling,
flatten, ...) acts independently on each batch sample, so its batched
action is `List.map op` for a per-sample function `op : α → β`.
Stateful modules are embedded as explicit state-passing functions
`σ → input → σ × output`.

Shape model: for the claims about `x.dim()` checks and the `step_mode`
dispatch, a tensor carries its shape (`List Nat`) and flat data; a
Python `raise ValueError` is an `Except.error`, an implicit
`return None` is `Option.none`, and the host layer is an abstract
stateful function `σ → Tensor α → σ × Tensor α` (the state `σ` covers
host-internal mutable data such as batch-norm running statistics).
-/

/-- Splits a flat list back into `T` rows of `N` elements each, the
inverse of merging the leading two axes: row `t` is
`(l.drop (t * N)).take N`, matching `y.view([T, N, ...])`. -/
def unflatten (T N : Nat) (l : List β) : List (List β) :=
  (List.range T).map (fun t => (l.drop (t * N)).take N)

/-- Modelled from the spec: `functional.seq_to_ann_forward` (module
`spikingjelly.activation_based.functional`, not under `src/`): it
"reshapes away the time axis" — merges the leading time axis of a
`[T, N, ...]` input into the batch axis, applies the stateless host
operation `f` once on the merged `[T*N, ...]` batch, and splits the
two axes back. -/
def seq_to_ann_forward (f : List α → List β) (x_seq : List (List α)) : List (List β) :=
  unflatten x_seq.length (x_seq.headD []).length (f x_seq.flatten)

/-- Modelled from the spec: `functional.multi_step_forward` (module
`spikingjelly.activation_based.functional`, not under `src/`): applies
the (stateful) single-step module `f` once per time step in increasing
order, carrying the module state across the `T` calls, and stacks the
per-step outputs along a new leading time axis. -/
def multi_step_forward (f : σ → α → σ × β) : σ → List α → σ × List β
  | s, [] => (s, [])
  | s, x :: xs =>
    let r := f s x
    let rest := multi_step_forward f r.1 xs
    (rest.1, r.2 :: rest.2)

/-- Module state reached after feeding a list of inputs one by one. -/
def stateAfter (f : σ → α → σ × β) (s : σ) (xs : List α) : σ :=
  xs.foldl (fun s x => (f s x).1) s

/-- The `step_mode == 'm'` branch shared by the stateless wrappers
(`Conv2d.forward` layer.py:118-121, `BatchNorm2d.forward` 165-168,
`GroupNorm.forward` 205-206, `MaxPool2d.forward` 242-245,
`AvgPool2d.forward` 281-284, `AdaptiveAvgPool2d.forward` 319-322,
`Flatten.forward` 382-383): `functional.seq_to_ann_forward(x, super().forward)`,
where the host layer `super().forward` maps `op` over the batch. -/
def seqWrapperForwardM (op : α → β) (x_seq : List (List α)) : List (List β) :=
  seq_to_ann_forward (List.map op) x_seq

/-- Source `MultiStepContainer.forward` (layer.py:24-31):
`functional.multi_step_forward(x_seq, super().forward)`, the contained
module sequence being the stateful step function `f`. -/
def MultiStepContainer.forward (f : σ → α → σ × β) (s : σ) (x_seq : List α) : σ × List β :=
  multi_step_forward f s x_seq

/-- Source `StepModeContainer.forward` (layer.py:65-72), `step_mode == 'm'`
arm: with `stateful = True` it runs `functional.multi_step_forward`,
otherwise `functional.seq_to_ann_forward` (the contained sequence is
applied once on the merged batch, its state threaded through once). -/
def StepModeContainer.forwardM (stateful : Bool) (f : σ → List γ → σ × List γ)
    (s : σ) (x : List (List γ)) : σ × List (List γ) :=
  if stateful then multi_step_forward f s x
  else
    let r := f s x.flatten
    (r.1, unflatten x.length (x.headD []).length r.2)

/-- Shape-model tensor: a shape together with flat row-major data. -/
structure Tensor (α : Type) where
  shape : List Nat
  data : List α
deriving DecidableEq, Repr

/-- Number of dimensions of a tensor, Python `x.dim()`. -/
def Tensor.dim (x : Tensor α) : Nat := x.shape.length

/-- Merge of the two leading axes, Python `x.flatten(0, 1)`. -/
def Tensor.flatten01 (x : Tensor α) : Tensor α :=
  match x.shape with
  | T :: N :: rest => ⟨T * N :: rest, x.data⟩
  | _ => x

/-- Modelled from the spec: `functional.seq_to_ann_forward` at the shape
level (module `spikingjelly.activation_based.functional`, not under
`src/`): merge the leading two axes, run the host layer once, and view
the result back with the original leading `[T, N]` axes. -/
def seqToAnnForwardT (host : σ → Tensor α → σ × Tensor α) (s : σ) (x : Tensor α) :
    σ × Tensor α :=
  let r := host s (x.flatten01)
  (r.1, ⟨x.shape.take 2 ++ r.2.shape.drop 1, r.2.data⟩)

/-- Error message raised by the 5-dimension checks in layer.py. -/
def dimErrMsg (x : Tensor α) : String :=
  "expected x with shape [T, N, C, H, W], but got x with shape " ++ toString x.shape ++ "!"

/-- Source `Conv2d.forward` (layer.py:114-123): in mode `'s'` apply the
host layer directly; in mode `'m'` check `x.dim() == 5` (else raise
`ValueError`) and use the merge-apply-split path; any other mode falls
through and returns `x` unchanged. -/
def Conv2d.forward (host : σ → Tensor α → σ × Tensor α) (mode : String)
    (s : σ) (x : Tensor α) : σ × Except String (Tensor α) :=
  if mode = "s" then
    let r := host s x
    (r.1, .ok r.2)
  else if mode = "m" then
    if x.dim ≠ 5 then (s, .error (dimErrMsg x))
    else
      let r := seqToAnnForwardT host s x
      (r.1, .ok r.2)
  else (s, .ok x)

/-- Source `MaxPool2d.forward` (layer.py:238-247), same structure as
`Conv2d.forward`. -/
def MaxPool2d.forward (host : σ → Tensor α → σ × Tensor α) (mode : String)
    (s : σ) (x : Tensor α) : σ × Except String (Tensor α) :=
  if mode = "s" then
    let r := host s x
    (r.1, .ok r.2)
  else if mode = "m" then
    if x.dim ≠ 5 then (s, .error (dimErrMsg x))
    else
      let r := seqToAnnForwardT host s x
      (r.1, .ok r.2)
  else (s, .ok x)

/-- Source `AvgPool2d.forward` (layer.py:277-286), same structure as
`Conv2d.forward`. -/
def AvgPool2d.forward (host : σ → Tensor α → σ × Tensor α) (mode : String)
    (s : σ) (x : Tensor α) : σ × Except String (Tensor α) :=
  if mode = "s" then
    let r := host s x
    (r.1, .ok r.2)
  else if mode = "m" then
    if x.dim ≠ 5 then (s, .error (dimErrMsg x))
    else
      let r := seqToAnnForwardT host s x
      (r.1, .ok r.2)
  else (s, .ok x)

/-- Source `AdaptiveAvgPool2d.forward` (layer.py:315-324), same structure
as `Conv2d.forward`. -/
def AdaptiveAvgPool2d.forward (host : σ → Tensor α → σ × Tensor α) (mode : String)
    (s : σ) (x : Tensor α) : σ × Except String (Tensor α) :=
  if mode = "s" then
    let r := host s x
    (r.1, .ok r.2)
  else if mode = "m" then
    if x.dim ≠ 5 then (s, .error (dimErrMsg x))
    else
      let r := seqToAnnForwardT host s x
      (r.1, .ok r.2)
  else (s, .ok x)

/-- Source `BatchNorm2d.forward` (layer.py:161-168): each branch returns
directly; an unrecognized mode falls off the function end, returning
Python `None` (`Option.none`). -/
def BatchNorm2d.forward (host : σ → Tensor α → σ × Tensor α) (mode : String)
    (s : σ) (x : Tensor α) : σ × Except String (Option (Tensor α)) :=
  if mode = "s" then
    let r := host s x
    (r.1, .ok (some r.2))
  else if mode = "m" then
    if x.dim ≠ 5 then (s, .error (dimErrMsg x))
    else
      let r := seqToAnnForwardT host s x
      (r.1, .ok (some r.2))
  else (s, .ok none)

/-- Source `GroupNorm.forward` (layer.py:201-206): like `BatchNorm2d.forward`
but with no dimension check, so no exception can be raised; an
unrecognized mode returns Python `None`. -/
def GroupNorm.forward (host : σ → Tensor α → σ × Tensor α) (mode : String)
    (s : σ) (x : Tensor α) : σ × Option (Tensor α) :=
  if mode = "s" then
    let r := host s x
    (r.1, some r.2)
  else if mode = "m" then
    let r := seqToAnnForwardT host s x
    (r.1, some r.2)
  else (s, none)

/-- Source `Flatten.forward` (layer.py:378-384): no dimension check, and
an unrecognized mode returns `x` unchanged. -/
def Flatten.forward (host : σ → Tensor α → σ × Tensor α) (mode : String)
    (s : σ) (x : Tensor α) : σ × Tensor α :=
  if mode = "s" then host s x
  else if mode = "m" then seqToAnnForwardT host s x
  else (s, x)

/-- Constructor pattern shared by every stateless wrapper
(layer.py:108-109, 155-156, 195-196, 232-233, 271-272, 309-310, 347-348,
372-373): `super().__init__(<parent parameters>); self.step_mode = step_mode`.
The parent parameters are forwarded unchanged as `params`. -/
structure Wrapper (P : Type) where
  params : P
  step_mode : String

/-- Wrapper constructor: forwards the parent's parameters and stores the
`step_mode` attribute, nothing else. -/
def Wrapper.init (p : P) (mode : String) : Wrapper P := ⟨p, mode⟩

/-- Source `Dropout` (layer.py:473-566, and its subclass `Dropout2d`,
layer.py:569-604): the dropout probability `p` and the registered
memory variable `mask` (`register_memory('mask', None)`,
layer.py:541). The mask payload type is `μ` (a tensor). -/
structure Dropout (μ : Type) where
  p : ℚ
  mask : Option μ

/-- Source `Dropout.__init__` (layer.py:538-542): registers `mask` with
initial value `None`. -/
def Dropout.mk' (p : ℚ) : Dropout μ := ⟨p, none⟩

/-- Modelled from the spec: `base.MemoryModule.reset` (module
`spikingjelly.activation_based.base`, not under `src/`): the "reset()
memory-clearing convention" restores every registered memory variable
to its registered initial value — here `mask` back to `None` — leaving
everything else untouched. -/
def Dropout.reset (d : Dropout μ) : Dropout μ := { d with mask := none }

/-- Source `Dropout.create_mask` (layer.py:547-548):
`self.mask = F.dropout(torch.ones_like(x.data), self.p, training=True)`.
The host random draw is abstracted as `gen : μ → μ`, mapping the input
(whose shape the mask copies) to the sampled mask; `Dropout2d` differs
from `Dropout` only in using `F.dropout2d`, i.e. a different `gen`. -/
def Dropout.create_mask (gen : μ → μ) (d : Dropout μ) (x : μ) : Dropout μ :=
  { d with mask := some (gen x) }

/-- Source `Dropout.single_step_forward` (layer.py:550-557): in training
mode, create the mask on the first call only, then return
`x * self.mask` (`mul` is the host elementwise product); in eval mode
return `x` unchanged. -/
def Dropout.single_step_forward (gen : μ → μ) (mul : μ → μ → μ) (training : Bool)
    (d : Dropout μ) (x : μ) : Dropout μ × μ :=
  if training then
    match d.mask with
    | none => (d.create_mask gen x, mul x (gen x))
    | some m => (d, mul x m)
  else (d, x)

/-- Source `Dropout.multi_step_forward` (layer.py:559-566): in training
mode, create the mask from `x_seq[0]` on the first call only, then
return `x_seq * self.mask` (the mask broadcasts over the leading time
axis, multiplying every slice); Python raises on `x_seq[0]` when the
sequence is empty, hence the `Option`. In eval mode return `x_seq`. -/
def Dropout.multi_step_forward (gen : μ → μ) (mul : μ → μ → μ) (training : Bool)
    (d : Dropout μ) (x_seq : List μ) : Option (Dropout μ × List μ) :=
  if training then
    match d.mask with
    | some m => some (d, x_seq.map (fun x => mul x m))
    | none =>
      match x_seq with
      | [] => none
      | x0 :: _ => some (d.create_mask gen x0, x_seq.map (fun x => mul x (gen x0)))
  else some (d, x_seq)

/-- Source `NeuNorm` (layer.py:387-470): learnable parameter `w`, the
constants `k0`, `k1`, and the registered memory `x`
(`register_memory('x', 0.)`, layer.py:455), whose value is either the
registered float `0.` or a tensor (`Sum.inl` / `Sum.inr`). -/
structure NeuNorm (μ : Type) where
  k0 : ℚ
  k1 : ℚ
  w : μ
  x : ℚ ⊕ μ

/-- Modelled from the spec: `base.MemoryModule.reset` for `NeuNorm`
(module `spikingjelly.activation_based.base`, not under `src/`):
restores the registered memory `x` to its registered initial value
`0.`, leaving the learnable parameter `w` (and `k0`, `k1`) unchanged. -/
def NeuNorm.reset (n : NeuNorm μ) : NeuNorm μ := { n with x := Sum.inl 0 }

/-- Source `SynapseFilter` (layer.py:607-791): the flag `learnable`,
the parameter `w` (when learnable) or constant `tau`, and the registered
memory `out_i` (`register_memory('out_i', 0.)`, layer.py:755), a float
until the first forward replaces it by a tensor. -/
structure SynapseFilter (μ : Type) where
  learnable : Bool
  w : ℚ
  tau : ℚ
  out_i : ℚ ⊕ μ

/-- Modelled from the spec: `base.MemoryModule.reset` for `SynapseFilter`
(module `spikingjelly.activation_based.base`, not under `src/`):
restores the registered memory `out_i` to its registered initial value
`0.`, leaving `w`, `tau` and `learnable` unchanged. -/
def SynapseFilter.reset (s : SynapseFilter μ) : SynapseFilter μ :=
  { s with out_i := Sum.inl 0 }

/-- Source `DropConnectLinear` (layer.py:794-985): learnable `weight`
and optional `bias`, probability `p`, registered memories `dropped_w`
and `dropped_b` (`register_memory(..., None)`, layer.py:885-887), and
the activation module, embedded as a state `actState` together with
`actReset`, which is `some r` exactly when the activation has a
`reset` method `r` (the `hasattr(self.activation, 'reset')` test at
layer.py:941). -/
structure DropConnectLinear (μ σa : Type) where
  weight : μ
  bias : Option μ
  p : ℚ
  dropped_w : Option μ
  dropped_b : Option μ
  actState : σa
  actReset : Option (σa → σa)

/-- Source `DropConnectLinear.reset` (layer.py:919-942): `super().reset()`
restores the registered memories `dropped_w` and `dropped_b` to `None`
(modelled from the spec for `base.MemoryModule.reset`, not under
`src/`), and then, when the activation has a `reset` method, calls it. -/
def DropConnectLinear.reset (d : DropConnectLinear μ σa) : DropConnectLinear μ σa :=
  { d with
    dropped_w := none
    dropped_b := none
    actState :=
      match d.actReset with
      | some r => r d.actState
      | none => d.actState }

/-- Source `ElementWiseRecurrentContainer` (layer.py:1019-1116): the
registered memory `y` (`register_memory('y', None)`, layer.py:1107). -/
structure ElementWiseRecurrentContainer (μ : Type) where
  y : Option μ

/-- Source `ElementWiseRecurrentContainer.single_step_forward`
(layer.py:1109-1113): on the first call `y` is set to
`torch.zeros_like(x)` (`zeros`), then
`self.y = self.sub_module(self.element_wise_function(self.y, x))` and
`self.y` is returned. -/
def ElementWiseRecurrentContainer.single_step_forward (sub : μ → μ) (f : μ → μ → μ)
    (zeros : μ → μ) (c : ElementWiseRecurrentContainer μ) (x : μ) :
    ElementWiseRecurrentContainer μ × μ :=
  let y0 := c.y.getD (zeros x)
  let y1 := sub (f y0 x)
  (⟨some y1⟩, y1)

/-- Source `LinearRecurrentContainer` (layer.py:1119-1246): the
registered memory `y` (`register_memory('y', None)`, layer.py:1230). -/
structure LinearRecurrentContainer (μ : Type) where
  y : Option μ

/-- Source `LinearRecurrentContainer.single_step_forward`
(layer.py:1232-1243): on the first call `y` is set to a zero tensor
whose last dimension is `out_features` (`zerosL`, abstracting
`torch.zeros([x.shape[0], ..., out_features])`), then
`x = torch.cat((x, self.y), dim=-1)`, `self.y = self.sub_module(self.rc(x))`
and `self.y` is returned (`rc` is the `nn.Linear` recurrent connection). -/
def LinearRecurrentContainer.single_step_forward (sub : μ → μ) (rc : μ → μ)
    (cat : μ → μ → μ) (zerosL : μ → μ) (c : LinearRecurrentContainer μ) (x : μ) :
    LinearRecurrentContainer μ × μ :=
  let y0 := c.y.getD (zerosL x)
  let y1 := sub (rc (cat x y0))
  (⟨some y1⟩, y1)

/-- Reference recurrence for `ElementWiseRecurrentContainer`: given the
previous output `yprev`, each step outputs `sub (f yprev x[t])`. -/
def ewrcOutputs (sub : μ → μ) (f : μ → μ → μ) : μ → List μ → List μ
  | _, [] => []
  | yprev, x :: xs =>
    let y := sub (f yprev x)
    y :: ewrcOutputs sub f y xs

/-- Reference recurrence for `LinearRecurrentContainer`: given the
previous output `yprev`, each step outputs `sub (rc (cat x[t] yprev))`. -/
def lrcOutputs (sub : μ → μ) (rc : μ → μ) (cat : μ → μ → μ) : μ → List μ → List μ
  | _, [] => []
  | yprev, x :: xs =>
    let y := sub (rc (cat x yprev))
    y :: lrcOutputs sub rc cat y xs

/-- Source `SResNetTrainer.preprocess_train_sample` (VGG_test.py:10-12):
`x.unsqueeze(0).repeat(args.T, 1, 1, 1, 1)` stacks `T` copies of the
`[N, C, H, W]` sample `x` along a new leading time axis. -/
def preprocess_train_sample (T : Nat) (x : μ) : List μ :=
  List.replicate T x

/-- Source `SResNetTrainer.preprocess_test_sample` (VGG_test.py:14-16):
identical to `preprocess_train_sample`. -/
def preprocess_test_sample (T : Nat) (x : μ) : List μ :=
  List.replicate T x

/-- Source `SResNetTrainer.process_model_output` (VGG_test.py:18-19):
`y.mean(0)`, the elementwise mean of the `[T, ...]` output over the
leading time dimension (the firing rate); a tensor slice is embedded as
a `ℚ`-valued map on its index set `ι`. -/
def process_model_output {ι : Type} (ys : List (ι → ℚ)) : ι → ℚ :=
  fun i => (ys.map (fun y => y i)).sum / ys.length

theorem flatten_drop_take {α : Type} (N : Nat) :
    ∀ (xs : List (List α)), (∀ r ∈ xs, r.length = N) →
    ∀ t (ht : t < xs.length), ((xs.flatten).drop (t * N)).take N = xs.get ⟨t, ht⟩ := by
  intro xs
  induction xs with
  | nil => intro _ t ht; exact absurd ht (Nat.not_lt_zero t)
  | cons x xs ih =>
    intro hN t ht
    have hx : x.length = N := hN x (List.mem_cons_self x xs)
    cases t with
    | zero =>
      simp only [Nat.zero_mul, List.drop_zero, List.flatten_cons, List.get]
      rw [← hx, List.take_left]
    | succ t =>
      have hts : t < xs.length := Nat.lt_of_succ_lt_succ ht
      have hstep : (t + 1) * N = x.length + t * N := by
        rw [hx]; ring
      simp only [List.flatten_cons, List.get, hstep]
      rw [List.drop_append]
      exact ih (fun r hr => hN r (List.mem_cons_of_mem x hr)) t hts

/-- C1: for every stateless wrapper layer with `step_mode = 'm'` and a
rectangular input `x_seq` of shape `[T, N, ...]`, the forward path
merges the time axis into the batch axis, applies the host operation
once, and splits back, so that the `t`-th time slice of the output
equals the host operation applied to the `t`-th input slice. -/
theorem C1_multi_step_wrapper_slicewise {α β : Type} (op : α → β) (N : Nat)
    (x_seq : List (List α)) (hN : ∀ r ∈ x_seq, r.length = N)
    (t : Nat) (ht : t < x_seq.length) :
    (seqWrapperForwardM op x_seq)[t]? = some ((x_seq.get ⟨t, ht⟩).map op) := by
  have hhead : (x_seq.headD []).length = N := by
    cases x_seq with
    | nil => exact absurd ht (Nat.not_lt_zero t)
    | cons x xs => exact hN x (List.mem_cons_self x xs)
  unfold seqWrapperForwardM seq_to_ann_forward unflatten
  rw [hhead, List.getElem?_map, List.getElem?_range ht, Option.map_some']
  rw [List.map_flatten]
  have hN' : ∀ r ∈ x_seq.map (List.map op), r.length = N := by
    intro r hr
    obtain ⟨a, ha, rfl⟩ := List.mem_map.mp hr
    rw [List.length_map]
    exact hN a ha
  have ht' : t < (x_seq.map (List.map op)).length := by
    rw [List.length_map]; exact ht
  rw [flatten_drop_take N (x_seq.map (List.map op)) hN' t ht']
  rw [List.get_map]

/-- Witness for C1 at a concrete input: `op = (· + 1)` over
`[[1, 2], [3, 4], [5, 6]]` with `N = 2`, slice `t = 1`. -/
theorem C1_multi_step_wrapper_slicewise_witness :
    (seqWrapperForwardM (fun n : Nat => n + 1) [[1, 2], [3, 4], [5, 6]])[1]? =
      some (([[1, 2], [3, 4], [5, 6]].get ⟨1, by decide⟩).map (fun n : Nat => n + 1)) :=
  C1_multi_step_wrapper_slicewise (fun n : Nat => n + 1) 2 [[1, 2], [3, 4], [5, 6]]
    (by decide) 1 (by decide)

/-- C2: with `step_mode = 's'` every wrapper forward returns exactly the
parent host layer's forward on `x` (for `BatchNorm2d`/`GroupNorm`
wrapped in `some` since their Python `forward` returns a value), and
the wrapper constructor only forwards the parent's parameters and
stores the `step_mode` attribute. -/
theorem C2_single_step_is_parent_forward {σ α P : Type}
    (host : σ → Tensor α → σ × Tensor α) (s : σ) (x : Tensor α) (p : P) (mode : String) :
    Conv2d.forward host "s" s x = ((host s x).1, .ok (host s x).2) ∧
    MaxPool2d.forward host "s" s x = ((host s x).1, .ok (host s x).2) ∧
    AvgPool2d.forward host "s" s x = ((host s x).1, .ok (host s x).2) ∧
    AdaptiveAvgPool2d.forward host "s" s x = ((host s x).1, .ok (host s x).2) ∧
    BatchNorm2d.forward host "s" s x = ((host s x).1, .ok (some (host s x).2)) ∧
    GroupNorm.forward host "s" s x = ((host s x).1, some (host s x).2) ∧
    Flatten.forward host "s" s x = host s x ∧
    (Wrapper.init p mode).params = p ∧ (Wrapper.init p mode).step_mode = mode :=
  ⟨rfl, rfl, rfl, rfl, rfl, rfl, rfl, rfl, rfl⟩

/-- C9: `Dropout` (and `Dropout2d`, which differs only in the mask
sampler `gen`) with `training = False` returns the input unchanged from
both `single_step_forward` and `multi_step_forward`, for every `p`
(hidden inside `d` and `gen`) and every stored mask. -/
theorem C9_dropout_eval_identity {μ : Type} (gen : μ → μ) (mul : μ → μ → μ)
    (d : Dropout μ) (x : μ) (x_seq : List μ) :
    Dropout.single_step_forward gen mul false d x = (d, x) ∧
    Dropout.multi_step_forward gen mul false d x_seq = some (d, x_seq) :=
  ⟨rfl, rfl⟩

/-- C4: `reset()` restores every registered memory variable to its
registered initial value (`Dropout.mask` to `None`, `NeuNorm.x` to `0.`,
`SynapseFilter.out_i` to `0.`, `DropConnectLinear.dropped_w` and
`dropped_b` to `None`) while leaving the learnable parameters (and all
other attributes) unchanged; `DropConnectLinear.reset` additionally
resets its activation module exactly when that activation has a `reset`
method. -/
theorem C4_reset_restores_memories {μ σa : Type} (d : Dropout μ) (n : NeuNorm μ)
    (sf : SynapseFilter μ) (dc : DropConnectLinear μ σa) :
    d.reset.mask = none ∧ d.reset.p = d.p ∧
    n.reset.x = Sum.inl 0 ∧ n.reset.w = n.w ∧ n.reset.k0 = n.k0 ∧ n.reset.k1 = n.k1 ∧
    sf.reset.out_i = Sum.inl 0 ∧ sf.reset.w = sf.w ∧ sf.reset.tau = sf.tau ∧
    sf.reset.learnable = sf.learnable ∧
    dc.reset.dropped_w = none ∧ dc.reset.dropped_b = none ∧
    dc.reset.weight = dc.weight ∧ dc.reset.bias = dc.bias ∧ dc.reset.p = dc.p ∧
    dc.reset.actReset = dc.actReset ∧
    dc.reset.actState =
      (match dc.actReset with
       | some r => r dc.actState
       | none => dc.actState) :=
  ⟨rfl, rfl, rfl, rfl, rfl, rfl, rfl, rfl, rfl, rfl, rfl, rfl, rfl, rfl, rfl, rfl, rfl⟩

theorem multi_step_forward_length {σ α β : Type} (f : σ → α → σ × β) :
    ∀ (xs : List α) (s : σ), (multi_step_forward f s xs).2.length = xs.length := by
  intro xs
  induction xs with
  | nil => intro s; rfl
  | cons x xs ih => intro s; simp [multi_step_forward, ih]

theorem multi_step_forward_state {σ α β : Type} (f : σ → α → σ × β) :
    ∀ (xs : List α) (s : σ), (multi_step_forward f s xs).1 = stateAfter f s xs := by
  intro xs
  induction xs with
  | nil => intro s; rfl
  | cons x xs ih => intro s; simp [multi_step_forward, stateAfter, List.foldl_cons, ih]

theorem multi_step_forward_getElem {σ α β : Type} (f : σ → α → σ × β) :
    ∀ (xs : List α) (s : σ) (t : Nat) (ht : t < xs.length),
      (multi_step_forward f s xs).2[t]? =
        some (f (stateAfter f s (xs.take t)) (xs.get ⟨t, ht⟩)).2 := by
  intro xs
  induction xs with
  | nil => intro s t ht; exact absurd ht (Nat.not_lt_zero t)
  | cons x xs ih =>
    intro s t ht
    cases t with
    | zero => simp [multi_step_forward, stateAfter, List.get]
    | succ t =>
      have hts : t < xs.length := Nat.lt_of_succ_lt_succ ht
      simp only [multi_step_forward, List.getElem?_cons_succ, List.take_succ_cons,
        List.get, stateAfter, List.foldl_cons]
      exact ih (f s x).1 t hts

/-- C3: a stateful container in multi-step execution
(`MultiStepContainer.forward`, and `StepModeContainer.forwardM` with
`stateful = true`) applies the contained module sequence `f` once per
time step in increasing `t` order (the state fed to step `t` is the
fold of `f` over the first `t` inputs), carrying the state across the
`T` calls, and stacks the per-step outputs along the leading time axis;
`StepModeContainer.forwardM` with `stateful = false` instead uses the
merge-and-reshape (`seq_to_ann_forward`) path, calling the contained
sequence once. -/
theorem C3_stateful_containers {σ τ α β γ : Type} (f : σ → α → σ × β)
    (g : τ → List γ → τ × List γ) (s : σ) (s' : τ) (x_seq : List α)
    (x : List (List γ)) (t : Nat) (ht : t < x_seq.length) :
    MultiStepContainer.forward f s x_seq = multi_step_forward f s x_seq ∧
    (MultiStepContainer.forward f s x_seq).2.length = x_seq.length ∧
    (MultiStepContainer.forward f s x_seq).2[t]? =
      some (f (stateAfter f s (x_seq.take t)) (x_seq.get ⟨t, ht⟩)).2 ∧
    (MultiStepContainer.forward f s x_seq).1 = stateAfter f s x_seq ∧
    StepModeContainer.forwardM true g s' x = multi_step_forward g s' x ∧
    StepModeContainer.forwardM false g s' x =
      ((g s' x.flatten).1, seq_to_ann_forward (fun b => (g s' b).2) x) :=
  ⟨rfl, multi_step_forward_length f x_seq s,
   multi_step_forward_getElem f x_seq s t ht,
   multi_step_forward_state f x_seq s, rfl, rfl⟩

/-- Witness for C3 at a concrete input: a running-sum module over
`[1, 2, 3]`, checked at `t = 2`. -/
theorem C3_stateful_containers_witness :
    (MultiStepContainer.forward (fun (s : Nat) (x : Nat) => (s + x, s + x)) 0 [1, 2, 3]).2[2]? =
      some ((fun (s : Nat) (x : Nat) => (s + x, s + x))
        (stateAfter (fun (s : Nat) (x : Nat) => (s + x, s + x)) 0 ([1, 2, 3].take 2))
        ([1, 2, 3].get ⟨2, by decide⟩)).2 :=
  (C3_stateful_containers (fun (s : Nat) (x : Nat) => (s + x, s + x))
    (fun (s : Nat) (b : List Nat) => (s, b)) 0 0 [1, 2, 3] [[1]] 2 (by decide)).2.2.1

theorem dropout_run_fixed_mask {μ : Type} (gen : μ → μ) (mul : μ → μ → μ)
    (p : ℚ) (m : μ) :
    ∀ (xs : List μ),
      multi_step_forward (Dropout.single_step_forward gen mul true) ⟨p, some m⟩ xs =
        (⟨p, some m⟩, xs.map (fun z => mul z m)) := by
  intro xs
  induction xs with
  | nil => rfl
  | cons x xs ih =>
    simp [multi_step_forward, Dropout.single_step_forward, ih]

/-- C5: for `Dropout` (and `Dropout2d`, whose only difference is the
mask sampler `gen`) in training mode, the mask is created exactly once,
at the first forward after construction (`Dropout.mk'`) or `reset()`:
iterating `single_step_forward` over inputs `x :: xs` samples the mask
from `x`, every later step multiplies by that same unchanged mask, and
the module's own `multi_step_forward` samples it from slice `0` and
multiplies every slice by it. -/
theorem C5_dropout_mask_created_once {μ : Type} (gen : μ → μ) (mul : μ → μ → μ)
    (p : ℚ) (d : Dropout μ) (x : μ) (xs : List μ) :
    multi_step_forward (Dropout.single_step_forward gen mul true) (Dropout.mk' p) (x :: xs) =
      (⟨p, some (gen x)⟩, mul x (gen x) :: xs.map (fun z => mul z (gen x))) ∧
    multi_step_forward (Dropout.single_step_forward gen mul true) d.reset (x :: xs) =
      (⟨d.p, some (gen x)⟩, mul x (gen x) :: xs.map (fun z => mul z (gen x))) ∧
    Dropout.multi_step_forward gen mul true d.reset (x :: xs) =
      some (⟨d.p, some (gen x)⟩, mul x (gen x) :: xs.map (fun z => mul z (gen x))) := by
  refine ⟨?_, ?_, ?_⟩
  · simp [multi_step_forward, Dropout.single_step_forward, Dropout.mk',
      Dropout.create_mask, dropout_run_fixed_mask]
  · simp [multi_step_forward, Dropout.single_step_forward, Dropout.reset,
      Dropout.create_mask, dropout_run_fixed_mask]
  · simp [Dropout.multi_step_forward, Dropout.reset, Dropout.create_mask]

theorem ewrc_run_from {μ : Type} (sub : μ → μ) (f : μ → μ → μ) (zeros : μ → μ) :
    ∀ (xs : List μ) (y : μ),
      (multi_step_forward (ElementWiseRecurrentContainer.single_step_forward sub f zeros)
        ⟨some y⟩ xs).2 = ewrcOutputs sub f y xs := by
  intro xs
  induction xs with
  | nil => intro y; rfl
  | cons x xs ih =>
    intro y
    simp [multi_step_forward, ElementWiseRecurrentContainer.single_step_forward,
      ewrcOutputs, ih]

theorem lrc_run_from {μ : Type} (sub : μ → μ) (rc : μ → μ) (cat : μ → μ → μ)
    (zerosL : μ → μ) :
    ∀ (xs : List μ) (y : μ),
      (multi_step_forward (LinearRecurrentContainer.single_step_forward sub rc cat zerosL)
        ⟨some y⟩ xs).2 = lrcOutputs sub rc cat y xs := by
  intro xs
  induction xs with
  | nil => intro y; rfl
  | cons x xs ih =>
    intro y
    simp [multi_step_forward, LinearRecurrentContainer.single_step_forward,
      lrcOutputs, ih]

/-- C6: `ElementWiseRecurrentContainer` started fresh (`y = None`)
produces, on inputs `x :: xs`, exactly the recurrence
`y[t] = sub (f (y[t-1]) (x[t]))` with `y[-1] = zeros x` (a zero tensor
shaped like the first input); `LinearRecurrentContainer` produces
`y[t] = sub (rc (cat (x[t]) (y[t-1])))` with `y[-1] = zerosL x` (a zero
tensor whose last dimension is `out_features`); in both, the stored
feedback after any call equals the returned output. -/
theorem C6_recurrent_containers {μ : Type} (sub subL rc : μ → μ) (f : μ → μ → μ)
    (cat : μ → μ → μ) (zeros zerosL : μ → μ) (c : ElementWiseRecurrentContainer μ)
    (cl : LinearRecurrentContainer μ) (x : μ) (xs : List μ) :
    (multi_step_forward (ElementWiseRecurrentContainer.single_step_forward sub f zeros)
      ⟨none⟩ (x :: xs)).2 = ewrcOutputs sub f (zeros x) (x :: xs) ∧
    (ElementWiseRecurrentContainer.single_step_forward sub f zeros c x).1.y =
      some (ElementWiseRecurrentContainer.single_step_forward sub f zeros c x).2 ∧
    (multi_step_forward (LinearRecurrentContainer.single_step_forward subL rc cat zerosL)
      ⟨none⟩ (x :: xs)).2 = lrcOutputs subL rc cat (zerosL x) (x :: xs) ∧
    (LinearRecurrentContainer.single_step_forward subL rc cat zerosL cl x).1.y =
      some (LinearRecurrentContainer.single_step_forward subL rc cat zerosL cl x).2 := by
  refine ⟨?_, rfl, ?_, rfl⟩
  · simp [multi_step_forward, ElementWiseRecurrentContainer.single_step_forward,
      ewrcOutputs, ewrc_run_from]
  · simp [multi_step_forward, LinearRecurrentContainer.single_step_forward,
      lrcOutputs, lrc_run_from]

/-- C7: with `step_mode = 'm'`, the forwards of `Conv2d`, `BatchNorm2d`,
`MaxPool2d`, `AvgPool2d` and `AdaptiveAvgPool2d` raise `ValueError` on
every input whose number of dimensions is not 5, leaving the module
(host) state unchanged, and raise nothing on a 5-dimensional input. -/
theorem C7_multi_step_dim_check {σ α : Type}
    (h1 h2 h3 h4 h5 : σ → Tensor α → σ × Tensor α)
    (s1 s2 s3 s4 s5 : σ) (x : Tensor α) :
    (x.dim ≠ 5 →
      Conv2d.forward h1 "m" s1 x = (s1, .error (dimErrMsg x)) ∧
      BatchNorm2d.forward h2 "m" s2 x = (s2, .error (dimErrMsg x)) ∧
      MaxPool2d.forward h3 "m" s3 x = (s3, .error (dimErrMsg x)) ∧
      AvgPool2d.forward h4 "m" s4 x = (s4, .error (dimErrMsg x)) ∧
      AdaptiveAvgPool2d.forward h5 "m" s5 x = (s5, .error (dimErrMsg x))) ∧
    (x.dim = 5 →
      (∃ r : σ × Tensor α, Conv2d.forward h1 "m" s1 x = (r.1, Except.ok r.2)) ∧
      (∃ r : σ × Tensor α, BatchNorm2d.forward h2 "m" s2 x = (r.1, Except.ok (some r.2))) ∧
      (∃ r : σ × Tensor α, MaxPool2d.forward h3 "m" s3 x = (r.1, Except.ok r.2)) ∧
      (∃ r : σ × Tensor α, AvgPool2d.forward h4 "m" s4 x = (r.1, Except.ok r.2)) ∧
      (∃ r : σ × Tensor α, AdaptiveAvgPool2d.forward h5 "m" s5 x = (r.1, Except.ok r.2))) := by
  constructor
  · intro h
    refine ⟨?_, ?_, ?_, ?_, ?_⟩ <;>
      simp [Conv2d.forward, BatchNorm2d.forward, MaxPool2d.forward,
        AvgPool2d.forward, AdaptiveAvgPool2d.forward, h]
  · intro h
    exact ⟨⟨seqToAnnForwardT h1 s1 x, by simp [Conv2d.forward, h]⟩,
      ⟨seqToAnnForwardT h2 s2 x, by simp [BatchNorm2d.forward, h]⟩,
      ⟨seqToAnnForwardT h3 s3 x, by simp [MaxPool2d.forward, h]⟩,
      ⟨seqToAnnForwardT h4 s4 x, by simp [AvgPool2d.forward, h]⟩,
      ⟨seqToAnnForwardT h5 s5 x, by simp [AdaptiveAvgPool2d.forward, h]⟩⟩

/-- Witness for C7: a 2-dimensional tensor is rejected with the module
state unchanged, and a 5-dimensional tensor is accepted. -/
theorem C7_multi_step_dim_check_witness :
    Conv2d.forward (fun (s : Unit) x => (s, x)) "m" () (⟨[2, 3], []⟩ : Tensor Unit) =
      ((), .error (dimErrMsg (⟨[2, 3], []⟩ : Tensor Unit))) ∧
    (∃ r : Unit × Tensor Unit, Conv2d.forward (fun (s : Unit) x => (s, x)) "m" ()
      (⟨[1, 1, 1, 1, 1], []⟩ : Tensor Unit) = (r.1, Except.ok r.2)) :=
  ⟨((C7_multi_step_dim_check (fun (s : Unit) x => (s, x)) (fun s x => (s, x))
      (fun s x => (s, x)) (fun s x => (s, x)) (fun s x => (s, x))
      () () () () () (⟨[2, 3], []⟩ : Tensor Unit)).1 (by decide)).1,
   ((C7_multi_step_dim_check (fun (s : Unit) x => (s, x)) (fun s x => (s, x))
      (fun s x => (s, x)) (fun s x => (s, x)) (fun s x => (s, x))
      () () () () () (⟨[1, 1, 1, 1, 1], []⟩ : Tensor Unit)).2 (by decide)).1⟩

/-- C8: the training driver replicates every train and test sample `T`
times along a new leading time axis (each time slice equals `x`), and
aggregates the model output as its elementwise mean over the leading
time dimension — so the aggregate of a `T + 1`-step constant output is
that constant (the firing rate). -/
theorem C8_trainer_replicate_and_mean {μ ι : Type} (T : Nat) (x : μ)
    (ys : List (ι → ℚ)) (y : ι → ℚ) (t : Nat) (i : ι) :
    (preprocess_train_sample T x).length = T ∧
    (preprocess_train_sample T x)[t]? = (if t < T then some x else none) ∧
    (preprocess_test_sample T x)[t]? = (if t < T then some x else none) ∧
    process_model_output ys i = (ys.map (fun z => z i)).sum / ys.length ∧
    process_model_output (preprocess_test_sample (T + 1) y) i = y i := by
  refine ⟨List.length_replicate T x, List.getElem?_replicate, List.getElem?_replicate,
    rfl, ?_⟩
  have hT : ((T : ℚ) + 1) ≠ 0 := by positivity
  simp only [process_model_output, preprocess_test_sample, List.map_replicate,
    List.sum_replicate, List.length_replicate, nsmul_eq_mul]
  push_cast
  field_simp

/-- C10: when `step_mode` is any string other than `'s'` or `'m'`, the
forwards of `Conv2d`, `MaxPool2d`, `AvgPool2d`, `AdaptiveAvgPool2d` and
`Flatten` silently return the input unchanged, while `BatchNorm2d` and
`GroupNorm` return `None`; no exception is raised and the host state is
untouched. -/
theorem C10_unknown_mode_falls_through {σ α : Type}
    (h1 h2 h3 h4 h5 h6 h7 : σ → Tensor α → σ × Tensor α)
    (s1 s2 s3 s4 s5 s6 s7 : σ) (x : Tensor α) (mode : String)
    (hs : mode ≠ "s") (hm : mode ≠ "m") :
    Conv2d.forward h1 mode s1 x = (s1, .ok x) ∧
    MaxPool2d.forward h2 mode s2 x = (s2, .ok x) ∧
    AvgPool2d.forward h3 mode s3 x = (s3, .ok x) ∧
    AdaptiveAvgPool2d.forward h4 mode s4 x = (s4, .ok x) ∧
    Flatten.forward h5 mode s5 x = (s5, x) ∧
    BatchNorm2d.forward h6 mode s6 x = (s6, .ok none) ∧
    GroupNorm.forward h7 mode s7 x = (s7, none) := by
  refine ⟨?_, ?_, ?_, ?_, ?_, ?_, ?_⟩ <;>
    simp [Conv2d.forward, MaxPool2d.forward, AvgPool2d.forward,
      AdaptiveAvgPool2d.forward, Flatten.forward, BatchNorm2d.forward,
      GroupNorm.forward, hs, hm]

/-- Witness for C10 at the concrete unrecognized mode `"x"`. -/
theorem C10_unknown_mode_falls_through_witness :
    Conv2d.forward (fun (s : Unit) x => (s, x)) "x" () (⟨[2, 3], []⟩ : Tensor Unit) =
      ((), .ok (⟨[2, 3], []⟩ : Tensor Unit)) ∧
    BatchNorm2d.forward (fun (s : Unit) x => (s, x)) "x" () (⟨[2, 3], []⟩ : Tensor Unit) =
      ((), .ok none) :=
  ⟨(C10_unknown_mode_falls_through (fun (s : Unit) x => (s, x)) (fun s x => (s, x))
      (fun s x => (s, x)) (fun s x => (s, x)) (fun s x => (s, x)) (fun s x => (s, x))
      (fun s x => (s, x)) () () () () () () () (⟨[2, 3], []⟩ : Tensor Unit) "x"
      (by decide) (by decide)).1,
   (C10_unknown_mode_falls_through (fun (s : Unit) x => (s, x)) (fun s x => (s, x))
      (fun s x => (s, x)) (fun s x => (s, x)) (fun s x => (s, x)) (fun s x => (s, x))
      (fun s x => (s, x)) () () () () () () () (⟨[2, 3], []⟩ : Tensor Unit) "x"
      (by decide) (by decide)).2.2.2.2.2.1⟩
